import Mathlib

/-!
Verification development for the assessment-review automation tool
(src/app.py).  The UI-automation collaborator (Selenium driver) is
modelled as an environment of per-operation outcomes: every external
element operation either succeeds with a value, fails with a stale
reference, or fails with a wait timeout.  All internal control flow of
the source (retry loops, line parsing, timestamp parsing, delay
computation, per-item result bookkeeping including the append-in-branch
plus append-in-finally behaviour) is translated directly.
-/

namespace App

/-- Outcome of one external element operation (one wait-locate-act cycle). -/
inductive ElemOutcome (α : Type) where
  | ok (v : α)
  | stale
  | timeout
deriving DecidableEq

/-- Exceptions that can be raised while processing one work item.
Mirrors the exception kinds of the source: StaleElementReferenceException,
TimeoutException, the two accessor-exhaustion Exceptions, and anything else. -/
inductive AutoError where
  | stale
  | timeout
  | exhaustedText (locator : String) (attemptBound : Nat)
  | exhaustedClick (locator : String) (attemptBound : Nat)
  | other (msg : String)
deriving DecidableEq

/-- The message text of an exception, as used by the except-branch
detail string (str(e) in the source). -/
def AutoError.str : AutoError → String
  | .stale => "StaleElementReferenceException"
  | .timeout => "TimeoutException"
  | .exhaustedText l n =>
      "Could not get text from element at " ++ l ++ " after " ++ toString n ++ " attempts."
  | .exhaustedClick l n =>
      "Could not click the element at " ++ l ++ " after " ++ toString n ++ " attempts."
  | .other m => m

/-- Result of running one resilient accessor call: its outcome, the number
of wait-locate-act cycles performed, and the number of 1-time-unit backoff
sleeps taken. -/
structure AccessResult (α : Type) where
  outcome : Except AutoError α
  attempts : Nat
  sleeps : Nat

/-- Default max_attempts of both resilient accessors in the source. -/
def defaultMaxAttempts : Nat := 5

/-- Loop body of get_stale_proof_text: while attempts < max_attempts, wait for
presence and read text; only StaleElementReferenceException is caught (one
backoff sleep per catch); success returns the text; a timeout propagates.
The first argument of the recursion is the attempts counter, the second the
remaining loop budget (max_attempts - attempts). -/
def getTextGo (oracle : Nat → ElemOutcome String) (locator : String) (maxAttempts : Nat) :
    Nat → Nat → AccessResult String
  | made, 0 => ⟨.error (.exhaustedText locator maxAttempts), made, made⟩
  | made, n + 1 =>
      match oracle made with
      | .ok v => ⟨.ok v, made + 1, made⟩
      | .timeout => ⟨.error .timeout, made + 1, made⟩
      | .stale => getTextGo oracle locator maxAttempts (made + 1) n

/-- get_stale_proof_text of src/app.py (lines 39-50), with the driver's
per-attempt behaviour supplied by an oracle. -/
def get_stale_proof_text (oracle : Nat → ElemOutcome String) (locator : String)
    (maxAttempts : Nat) : AccessResult String :=
  getTextGo oracle locator maxAttempts 0 maxAttempts

/-- Loop body of stale_proof_click: while attempts < max_attempts, wait for
clickability and click via script; both StaleElementReferenceException and
TimeoutException are caught (one backoff sleep per catch); success returns True. -/
def clickGo (oracle : Nat → ElemOutcome Unit) (locator : String) (maxAttempts : Nat) :
    Nat → Nat → AccessResult Bool
  | made, 0 => ⟨.error (.exhaustedClick locator maxAttempts), made, made⟩
  | made, n + 1 =>
      match oracle made with
      | .ok _ => ⟨.ok true, made + 1, made⟩
      | .stale => clickGo oracle locator maxAttempts (made + 1) n
      | .timeout => clickGo oracle locator maxAttempts (made + 1) n

/-- stale_proof_click of src/app.py (lines 52-64), with the driver's
per-attempt behaviour supplied by an oracle. -/
def stale_proof_click (oracle : Nat → ElemOutcome Unit) (locator : String)
    (maxAttempts : Nat) : AccessResult Bool :=
  clickGo oracle locator maxAttempts 0 maxAttempts

/-- Loop body of the inline stage-3 unit-id read (src/app.py lines 197-207):
while attempts < 3, wait for all unit-id cells and read their texts; only
StaleElementReferenceException is caught; a timeout propagates; exhausting
the loop leaves unit_ids at its initial value, the empty list, with no error. -/
def readUnitIdsGo (oracle : Nat → ElemOutcome (List String)) :
    Nat → Nat → Except AutoError (List String) × Nat
  | made, 0 => (.ok [], made)
  | made, n + 1 =>
      match oracle made with
      | .ok xs => (.ok xs, made + 1)
      | .timeout => (.error .timeout, made + 1)
      | .stale => readUnitIdsGo oracle (made + 1) n

/-- The stage-3 unit-id list as read by the 3-attempt inline loop. -/
def readUnitIds (oracle : Nat → ElemOutcome (List String)) : Except AutoError (List String) :=
  (readUnitIdsGo oracle 0 3).1

/-! Python string helpers used by the input parsing. -/

/-- The whitespace characters stripped by str.strip() and matched by a
whitespace literal in a strptime format. -/
def pyWsChars : List Char := [' ', '\t', '\n', '\r', '\x0b', '\x0c']

def isPyWs (c : Char) : Bool := pyWsChars.contains c

/-- Python str.strip(): remove leading and trailing whitespace. -/
def pyStrip (s : String) : String :=
  ⟨((s.data.dropWhile isPyWs).reverse.dropWhile isPyWs).reverse⟩

/-- Split a character list at every occurrence of the separator.
Matches Python str.split(sep) for a one-character separator. -/
def splitChar (sep : Char) : List Char → List (List Char)
  | [] => [[]]
  | c :: rest =>
      match splitChar sep rest with
      | [] => [[]]
      | g :: gs => if c = sep then [] :: g :: gs else (c :: g) :: gs

/-- Python s.split(sep) for a one-character separator. -/
def pySplit (sep : Char) (s : String) : List String :=
  (splitChar sep s.data).map (fun cs => ⟨cs⟩)

/-- The work-item lines of an input blob (src/app.py line 99): strip the blob,
split on newlines, strip each line, keep the non-blank ones. -/
def getLines (blob : String) : List String :=
  ((pySplit '\n' (pyStrip blob)).map pyStrip).filter (fun l => !(l == ""))

/-! Timestamp parsing: datetime.strptime with the two accepted formats.
Each numeric directive matches a bounded run of digits (exactly four for the
year, one or two for the other fields) with the value range enforced by the
format's regular expression and the datetime constructor; a whitespace
literal in the format matches one or more whitespace characters; the whole
string must be consumed. -/

structure DateTime where
  year : Nat
  month : Nat
  day : Nat
  hour : Nat
  minute : Nat
  second : Nat
deriving DecidableEq

def digitVal (c : Char) : Nat := c.toNat - '0'.toNat

def natOfDigits (ds : List Char) : Nat := ds.foldl (fun a c => a * 10 + digitVal c) 0

/-- Parse a one-or-two-digit numeric field whose value must lie in lo..hi. -/
def parseField (lo hi : Nat) (cs : List Char) : Option (Nat × List Char) :=
  let ds := cs.takeWhile Char.isDigit
  if (ds.length = 1 ∨ ds.length = 2) ∧ lo ≤ natOfDigits ds ∧ natOfDigits ds ≤ hi then
    some (natOfDigits ds, cs.dropWhile Char.isDigit)
  else none

/-- Parse the %Y directive: exactly four digits. -/
def parseYear (cs : List Char) : Option (Nat × List Char) :=
  let ds := cs.takeWhile Char.isDigit
  if ds.length = 4 then some (natOfDigits ds, cs.dropWhile Char.isDigit) else none

/-- Parse a whitespace literal of the format: one or more whitespace characters. -/
def parseWs (cs : List Char) : Option (List Char) :=
  if (cs.takeWhile isPyWs).length ≥ 1 then some (cs.dropWhile isPyWs) else none

def expectChar (c : Char) : List Char → Option (List Char)
  | d :: rest => if d = c then some rest else none
  | [] => none

def isLeap (y : Nat) : Bool := y % 4 == 0 && (y % 100 != 0 || y % 400 == 0)

def daysInMonth (y m : Nat) : Nat :=
  if m = 2 then (if isLeap y then 29 else 28)
  else if m = 4 ∨ m = 6 ∨ m = 9 ∨ m = 11 then 30 else 31

/-- Parse the shared YYYY-MM-DD HH:MM leading portion of both formats. -/
def parseDateHM (cs : List Char) : Option (Nat × Nat × Nat × Nat × Nat × List Char) := do
  let (y, r1) ← parseYear cs
  let r2 ← expectChar '-' r1
  let (mo, r3) ← parseField 1 12 r2
  let r4 ← expectChar '-' r3
  let (d, r5) ← parseField 1 31 r4
  let r6 ← parseWs r5
  let (h, r7) ← parseField 0 23 r6
  let r8 ← expectChar ':' r7
  let (mi, r9) ← parseField 0 59 r8
  return (y, mo, d, h, mi, r9)

/-- datetime.strptime with format %Y-%m-%d %H:%M:%S. -/
def parseFmtSeconds (s : String) : Option DateTime := do
  let (y, mo, d, h, mi, r) ← parseDateHM s.data
  let r2 ← expectChar ':' r
  let (sec, r3) ← parseField 0 59 r2
  if r3 = [] ∧ 1 ≤ y ∧ d ≤ daysInMonth y mo then
    return ⟨y, mo, d, h, mi, sec⟩
  else none

/-- datetime.strptime with format %Y-%m-%d %H:%M. -/
def parseFmtMinutes (s : String) : Option DateTime := do
  let (y, mo, d, h, mi, r) ← parseDateHM s.data
  if r = [] ∧ 1 ≤ y ∧ d ≤ daysInMonth y mo then
    return ⟨y, mo, d, h, mi, 0⟩
  else none

/-- The nested try/except of src/app.py lines 133-143: try the
seconds-precision format first, and on ValueError try the minutes-precision
format; none means both raised, which the source turns into the
invalid-datetime rejection. -/
def parseCompletion (s : String) : Option DateTime :=
  match parseFmtSeconds s with
  | some dt => some dt
  | none => parseFmtMinutes s

/-! Delay computation (src/app.py lines 146-149). -/

def daysBeforeYear (y : Nat) : Nat :=
  (y - 1) * 365 + (y - 1) / 4 - (y - 1) / 100 + (y - 1) / 400

def daysBeforeMonth (y m : Nat) : Nat :=
  ((List.range (m - 1)).map (fun k => daysInMonth y (k + 1))).foldl (· + ·) 0

/-- date.toordinal: days since 0001-01-01 plus one. -/
def toOrdinal (dt : DateTime) : Nat :=
  daysBeforeYear dt.year + daysBeforeMonth dt.year dt.month + dt.day

/-- toordinal of 1970-01-01. -/
def epochOrdinal : Nat := 719163

/-- The completion datetime as whole seconds since the epoch. -/
def toEpochSec (dt : DateTime) : Int :=
  ((toOrdinal dt : Int) - (epochOrdinal : Int)) * 86400
    + dt.hour * 3600 + dt.minute * 60 + dt.second

/-- time_delta_seconds = int((current_dt - completion_dt).total_seconds())
clamped at zero.  The difference is carried in microseconds (datetime.now()
has microsecond precision) and int() truncates toward zero. -/
def timeDeltaSeconds (diffUs : Int) : Int :=
  let t := Int.tdiv diffUs 1000000
  if t < 0 then 0 else t

/-! The per-item pipeline. -/

/-- Locator of the stage-2 resolved assessment id cell. -/
def newIdLocator : String := "#result_list td.field-assessment_id"

/-- Locator of the stage-4 exam link. -/
def examLinkLocator : String := "#result_list th.field-id a"

/-- Environment for one stage-4 unit iteration: outcome of the
navigate-and-search operations, the per-attempt oracle of the
stale_proof_click on the exam link, the outcome of the wait for the review
checkbox, the checkbox's is_selected() state, the outcome of clicking the
checkbox, and the outcome of the save-and-banner operations. -/
structure UnitEnv where
  pre : Except AutoError Unit
  examLink : Nat → ElemOutcome Unit
  checkboxWait : Except AutoError Unit
  selected : Bool
  toggleClick : Except AutoError Unit
  post : Except AutoError Unit

/-- One stage-4 unit iteration (src/app.py lines 223-250).  Returns the
outcome together with the number of clicks performed on the review toggle. -/
def enableReviewForUnit (env : UnitEnv) : Except AutoError Unit × Nat :=
  match env.pre with
  | .error e => (.error e, 0)
  | .ok _ =>
      match (stale_proof_click env.examLink examLinkLocator defaultMaxAttempts).outcome with
      | .error e => (.error e, 0)
      | .ok _ =>
          match env.checkboxWait with
          | .error e => (.error e, 0)
          | .ok _ =>
              if env.selected then
                match env.post with
                | .error e => (.error e, 0)
                | .ok _ => (.ok (), 0)
              else
                match env.toggleClick with
                | .error e => (.error e, 1)
                | .ok _ =>
                    match env.post with
                    | .error e => (.error e, 1)
                    | .ok _ => (.ok (), 1)

/-- Accumulated observable effects of the stage-4 loop over the unit list. -/
structure Stage4Out where
  outcome : Except AutoError Unit
  details : String
  units : Nat
  clicks : Nat

/-- The stage-4 loop: units processed sequentially; each success appends its
detail; the first failing unit aborts the remaining units. -/
def stage4Go (uenv : Nat → UnitEnv) : Nat → List String → Stage4Out
  | _, [] => ⟨.ok (), "", 0, 0⟩
  | j, u :: rest =>
      match enableReviewForUnit (uenv j) with
      | (.error e, c) => ⟨.error e, "", 1, c⟩
      | (.ok _, c) =>
          let r := stage4Go uenv (j + 1) rest
          ⟨r.outcome, "Enabled review for " ++ u ++ "; " ++ r.details, r.units + 1, c + r.clicks⟩

/-- Environment for one work item: the wall clock at datetime.now() in
microseconds since the epoch, the outcomes of the stage-1 operations
(navigate, picker, fill, save, banner), of the stage-2 navigate-and-search
operations, the per-attempt oracle of the stage-2 resilient text read, the
outcome of the stage-3 navigate-and-search operations, the per-attempt
oracle of the stage-3 unit-id read, and the per-unit stage-4 environments. -/
structure ItemEnv where
  nowUs : Int
  stage1 : Except AutoError Unit
  stage2pre : Except AutoError Unit
  stage2read : Nat → ElemOutcome String
  stage3pre : Except AutoError Unit
  unitRead : Nat → ElemOutcome (List String)
  unitEnv : Nat → UnitEnv

/-- One row of the run's results list. -/
structure Result where
  id : String
  status : String
  details : String
deriving DecidableEq

/-- How an iteration of the main loop ends: with an early continue (the
branch itself appended the result before continuing), with the try body
completing, or with an exception caught by the per-item except clause. -/
inductive LineOutcome where
  | earlyContinue (r : Result)
  | completed (r : Result)
  | raised (e : AutoError) (r : Result)
deriving DecidableEq

/-- Observable effects of the try body of one main-loop iteration. -/
structure LineRun where
  outcome : LineOutcome
  stage4Units : Nat
  toggleClicks : Nat
  delay : Option Int
deriving DecidableEq

/-- The try body of one main-loop iteration (src/app.py lines 115-251):
split the line on commas, reject a malformed line; parse the timestamp with
the two-format fallback, reject on failure; compute the clamped delay; run
stage 1, stage 2 (resilient text read with the default attempt bound),
stage 3 (3-attempt unit-id read, with the empty list taken as the
no-units-found early continue), and the stage-4 unit loop.  Any stage
error becomes a raised outcome for the except clause. -/
def runLineBody (env : ItemEnv) (line : String) : LineRun :=
  match pySplit ',' line with
  | [p0, p1] =>
      let origId := pyStrip p0
      match parseCompletion (pyStrip p1) with
      | none => ⟨.earlyContinue ⟨origId, "Failed", "Invalid datetime format"⟩, 0, 0, none⟩
      | some dt =>
          let delay := timeDeltaSeconds (env.nowUs - toEpochSec dt * 1000000)
          match env.stage1 with
          | .error e => ⟨.raised e ⟨origId, "Failed", ""⟩, 0, 0, some delay⟩
          | .ok _ =>
              let d1 := "Review config created; "
              match env.stage2pre with
              | .error e => ⟨.raised e ⟨origId, "Success", d1⟩, 0, 0, some delay⟩
              | .ok _ =>
                  match (get_stale_proof_text env.stage2read newIdLocator
                      defaultMaxAttempts).outcome with
                  | .error e => ⟨.raised e ⟨origId, "Success", d1⟩, 0, 0, some delay⟩
                  | .ok newId =>
                      let d2 := d1 ++ "New ID: " ++ newId ++ "; "
                      match env.stage3pre with
                      | .error e => ⟨.raised e ⟨origId, "Success", d2⟩, 0, 0, some delay⟩
                      | .ok _ =>
                          match readUnitIds env.unitRead with
                          | .error e => ⟨.raised e ⟨origId, "Success", d2⟩, 0, 0, some delay⟩
                          | .ok unitIds =>
                              if unitIds.isEmpty then
                                ⟨.earlyContinue
                                    ⟨origId, "Success", d2 ++ "No Unit IDs found; "⟩,
                                  0, 0, some delay⟩
                              else
                                let d3 := d2 ++ "Found " ++ toString unitIds.length
                                    ++ " units; "
                                let s4 := stage4Go env.unitEnv 0 unitIds
                                match s4.outcome with
                                | .ok _ =>
                                    ⟨.completed ⟨origId, "Success", d3 ++ s4.details⟩,
                                      s4.units, s4.clicks, some delay⟩
                                | .error e =>
                                    ⟨.raised e ⟨origId, "Success", d3 ++ s4.details⟩,
                                      s4.units, s4.clicks, some delay⟩
  | _ => ⟨.earlyContinue ⟨"", "Failed", "Malformed input line"⟩, 0, 0, none⟩

/-- The results-list entries appended during one main-loop iteration.  An
early-continue branch appends the result itself and the finally clause
appends the same result again; a completed body is appended once by the
finally clause; a caught exception sets the status to Failed and appends
the error detail before the finally-clause append. -/
def lineResults (env : ItemEnv) (line : String) : List Result :=
  match (runLineBody env line).outcome with
  | .earlyContinue r => [r, r]
  | .completed r => [r]
  | .raised e r => [⟨r.id, "Failed", r.details ++ "Error: " ++ e.str⟩]

/-- The main loop over the work-item lines, strictly sequential and in
input order. -/
def runLines (env : Nat → ItemEnv) : List String → List Result
  | [] => []
  | l :: rest => lineResults (env 0) l ++ runLines (fun k => env (k + 1)) rest

/-- The results list produced by perform_automation for an input blob,
after a successful login (src/app.py lines 98-259). -/
def perform_automation_results (env : Nat → ItemEnv) (blob : String) : List Result :=
  runLines env (getLines blob)

/-! Concrete environments used as witnesses. -/

/-- A stage-4 environment in which every operation succeeds and the review
toggle is already selected. -/
def okUnitEnv : UnitEnv :=
  ⟨.ok (), fun _ => .ok (), .ok (), true, .ok (), .ok ()⟩

/-- A stage-4 environment in which every operation succeeds and the review
toggle is not yet selected. -/
def offUnitEnv : UnitEnv :=
  ⟨.ok (), fun _ => .ok (), .ok (), false, .ok (), .ok ()⟩

/-- An item environment in which every operation succeeds, the resolved id
reads "newid-123", and the unit search finds one unit. -/
def okItemEnv : ItemEnv :=
  ⟨0, .ok (), .ok (), fun _ => .ok "newid-123", .ok (), fun _ => .ok ["u1"],
    fun _ => okUnitEnv⟩

/-- An item environment whose stage-3 unit search genuinely returns zero rows. -/
def noUnitsEnv : ItemEnv :=
  { okItemEnv with unitRead := fun _ => .ok [] }

/-- An item environment whose stage-3 unit-id read is stale on every attempt. -/
def staleUnitsEnv : ItemEnv :=
  { okItemEnv with unitRead := fun _ => .stale }

/-- An item environment whose stage-1 operations raise a TimeoutException. -/
def stage1FailEnv : ItemEnv :=
  { okItemEnv with stage1 := .error .timeout }

end App

namespace App

/-- If every attempt in the remaining budget is stale, the text-accessor loop
performs all of them, sleeping once per attempt, and ends exhausted. -/
theorem getTextGo_all_stale (oracle : Nat → ElemOutcome String) (loc : String) (M : Nat) :
    ∀ (n made : Nat), (∀ k, made ≤ k → k < made + n → oracle k = ElemOutcome.stale) →
      getTextGo oracle loc M made n =
        ⟨.error (.exhaustedText loc M), made + n, made + n⟩ := by
  intro n
  induction n with
  | zero => intro made _; simp [getTextGo]
  | succ n ih =>
      intro made h
      have h0 : oracle made = ElemOutcome.stale := h made le_rfl (by omega)
      have ih2 := ih (made + 1) (fun k hk1 hk2 => h k (by omega) (by omega))
      simp only [getTextGo, h0]
      rw [ih2]
      congr 1 <;> omega

/-- If every attempt in the remaining budget is stale or a timeout, the
click-accessor loop performs all of them and ends exhausted. -/
theorem clickGo_all_transient (oracle : Nat → ElemOutcome Unit) (loc : String) (M : Nat) :
    ∀ (n made : Nat),
      (∀ k, made ≤ k → k < made + n →
        (oracle k = ElemOutcome.stale ∨ oracle k = ElemOutcome.timeout)) →
      clickGo oracle loc M made n =
        ⟨.error (.exhaustedClick loc M), made + n, made + n⟩ := by
  intro n
  induction n with
  | zero => intro made _; simp [clickGo]
  | succ n ih =>
      intro made h
      have ih2 := ih (made + 1) (fun k hk1 hk2 => h k (by omega) (by omega))
      rcases h made le_rfl (by omega) with h0 | h0 <;>
        · simp only [clickGo, h0]
          rw [ih2]
          congr 1 <;> omega

/-- An exhaustion error from the text-accessor loop can only arise after the
whole remaining budget has been spent, and it reports the loop's own locator
and attempt bound. -/
theorem getTextGo_exhausted_shape (oracle : Nat → ElemOutcome String) (loc : String) (M : Nat) :
    ∀ (n made : Nat) (l : String) (b : Nat),
      (getTextGo oracle loc M made n).outcome = Except.error (AutoError.exhaustedText l b) →
      (getTextGo oracle loc M made n).attempts = made + n ∧ l = loc ∧ b = M := by
  intro n
  induction n with
  | zero =>
      intro made l b h
      simp only [getTextGo] at h ⊢
      simp only [Except.error.injEq, AutoError.exhaustedText.injEq] at h
      exact ⟨rfl, h.1.symm, h.2.symm⟩
  | succ n ih =>
      intro made l b h
      cases ho : oracle made with
      | ok v => simp [getTextGo, ho] at h
      | timeout => simp [getTextGo, ho] at h
      | stale =>
          simp only [getTextGo, ho] at h ⊢
          have := ih (made + 1) l b h
          exact ⟨by omega, this.2.1, this.2.2⟩

/-- An exhaustion error from the click-accessor loop can only arise after the
whole remaining budget has been spent, and it reports the loop's own locator
and attempt bound. -/
theorem clickGo_exhausted_shape (oracle : Nat → ElemOutcome Unit) (loc : String) (M : Nat) :
    ∀ (n made : Nat) (l : String) (b : Nat),
      (clickGo oracle loc M made n).outcome = Except.error (AutoError.exhaustedClick l b) →
      (clickGo oracle loc M made n).attempts = made + n ∧ l = loc ∧ b = M := by
  intro n
  induction n with
  | zero =>
      intro made l b h
      simp only [clickGo] at h ⊢
      simp only [Except.error.injEq, AutoError.exhaustedClick.injEq] at h
      exact ⟨rfl, h.1.symm, h.2.symm⟩
  | succ n ih =>
      intro made l b h
      cases ho : oracle made with
      | ok v => simp [clickGo, ho] at h
      | timeout =>
          simp only [clickGo, ho] at h ⊢
          have := ih (made + 1) l b h
          exact ⟨by omega, this.2.1, this.2.2⟩
      | stale =>
          simp only [clickGo, ho] at h ⊢
          have := ih (made + 1) l b h
          exact ⟨by omega, this.2.1, this.2.2⟩

/-- If every attempt in the remaining budget is stale, the stage-3 unit-id
loop spends the whole budget and ends with the empty list and no error. -/
theorem readUnitIdsGo_all_stale (oracle : Nat → ElemOutcome (List String)) :
    ∀ (n made : Nat), (∀ k, made ≤ k → k < made + n → oracle k = ElemOutcome.stale) →
      readUnitIdsGo oracle made n = (Except.ok [], made + n) := by
  intro n
  induction n with
  | zero => intro made _; simp [readUnitIdsGo]
  | succ n ih =>
      intro made h
      have h0 : oracle made = ElemOutcome.stale := h made le_rfl (by omega)
      have ih2 := ih (made + 1) (fun k hk1 hk2 => h k (by omega) (by omega))
      simp only [readUnitIdsGo, h0]
      rw [ih2]
      congr 1
      omega

end App

namespace App

/-- C4: for both resilient accessors, when the element operation fails
transiently on every attempt, the full locate-and-act cycle is retried with a
one-time-unit backoff each time, and the raised error identifies the locator
and the attempt count only after exactly maxAttempts attempts have been made,
never before: any exhaustion error implies the full attempt count was spent. -/
theorem C4_accessor_exhaustion :
    (∀ (oracle : Nat → ElemOutcome String) (loc : String) (m : Nat),
        (∀ k, k < m → oracle k = ElemOutcome.stale) →
        get_stale_proof_text oracle loc m =
          ⟨.error (.exhaustedText loc m), m, m⟩)
    ∧ (∀ (oracle : Nat → ElemOutcome Unit) (loc : String) (m : Nat),
        (∀ k, k < m → (oracle k = ElemOutcome.stale ∨ oracle k = ElemOutcome.timeout)) →
        stale_proof_click oracle loc m =
          ⟨.error (.exhaustedClick loc m), m, m⟩)
    ∧ (∀ (oracle : Nat → ElemOutcome String) (loc : String) (m : Nat) (l : String) (b : Nat),
        (get_stale_proof_text oracle loc m).outcome =
          Except.error (AutoError.exhaustedText l b) →
        (get_stale_proof_text oracle loc m).attempts = m ∧ l = loc ∧ b = m)
    ∧ (∀ (oracle : Nat → ElemOutcome Unit) (loc : String) (m : Nat) (l : String) (b : Nat),
        (stale_proof_click oracle loc m).outcome =
          Except.error (AutoError.exhaustedClick l b) →
        (stale_proof_click oracle loc m).attempts = m ∧ l = loc ∧ b = m) := by
  refine ⟨?_, ?_, ?_, ?_⟩
  · intro oracle loc m h
    have := getTextGo_all_stale oracle loc m m 0 (fun k _ hk => h k (by omega))
    simpa [get_stale_proof_text] using this
  · intro oracle loc m h
    have := clickGo_all_transient oracle loc m m 0 (fun k _ hk => h k (by omega))
    simpa [stale_proof_click] using this
  · intro oracle loc m l b h
    have := getTextGo_exhausted_shape oracle loc m m 0 l b h
    simpa [get_stale_proof_text] using this
  · intro oracle loc m l b h
    have := clickGo_exhausted_shape oracle loc m m 0 l b h
    simpa [stale_proof_click] using this

theorem C4_accessor_exhaustion_witness :
    get_stale_proof_text (fun _ => ElemOutcome.stale) "sel-a" 2 =
      ⟨.error (.exhaustedText "sel-a" 2), 2, 2⟩
    ∧ stale_proof_click (fun _ => ElemOutcome.timeout) "sel-b" 3 =
      ⟨.error (.exhaustedClick "sel-b" 3), 3, 3⟩ :=
  ⟨C4_accessor_exhaustion.1 (fun _ => ElemOutcome.stale) "sel-a" 2 (fun _ _ => rfl),
    C4_accessor_exhaustion.2.1 (fun _ => ElemOutcome.timeout) "sel-b" 3
      (fun _ _ => Or.inr rfl)⟩

/-- C10: the read-text accessor retries only on staleness, so a timeout on
the first attempt propagates immediately, after exactly one attempt and with
no backoff sleep; the click accessor also retries on timeouts, so an
all-timeout oracle drives it to exhaustion after maxAttempts attempts. -/
theorem C10_timeout_retry_asymmetry :
    (∀ (oracle : Nat → ElemOutcome String) (loc : String) (m : Nat),
        0 < m → oracle 0 = ElemOutcome.timeout →
        get_stale_proof_text oracle loc m = ⟨.error AutoError.timeout, 1, 0⟩)
    ∧ (∀ (oracle : Nat → ElemOutcome Unit) (loc : String) (m : Nat),
        (∀ k, k < m → oracle k = ElemOutcome.timeout) →
        stale_proof_click oracle loc m = ⟨.error (.exhaustedClick loc m), m, m⟩) := by
  constructor
  · intro oracle loc m hm h0
    obtain ⟨n, rfl⟩ : ∃ n, m = n + 1 := ⟨m - 1, by omega⟩
    simp [get_stale_proof_text, getTextGo, h0]
  · intro oracle loc m h
    have := clickGo_all_transient oracle loc m m 0 (fun k _ hk => Or.inr (h k (by omega)))
    simpa [stale_proof_click] using this

theorem C10_timeout_retry_asymmetry_witness :
    get_stale_proof_text (fun _ => ElemOutcome.timeout) "sel-c" 5 =
      ⟨.error AutoError.timeout, 1, 0⟩
    ∧ stale_proof_click (fun _ => ElemOutcome.timeout) "sel-d" 4 =
      ⟨.error (.exhaustedClick "sel-d" 4), 4, 4⟩ :=
  ⟨C10_timeout_retry_asymmetry.1 (fun _ => ElemOutcome.timeout) "sel-c" 5 (by omega) rfl,
    C10_timeout_retry_asymmetry.2 (fun _ => ElemOutcome.timeout) "sel-d" 4 (fun _ _ => rfl)⟩

/-- C9: the stage-3 unit-id read is retried at most 3 times on staleness
(unlike the accessor default of 5, which raises on exhaustion), exhausting
the 3 attempts raises no error and leaves the unit-id list empty, and the
resulting per-item Result entries are identical to those of a search that
genuinely returned zero rows. -/
theorem C9_stage3_retry_bound :
    (∀ (oracle : Nat → ElemOutcome (List String)),
        (∀ k, k < 3 → oracle k = ElemOutcome.stale) →
        readUnitIdsGo oracle 0 3 = (Except.ok [], 3))
    ∧ (∀ (oracle : Nat → ElemOutcome String) (loc : String),
        (∀ k, k < 5 → oracle k = ElemOutcome.stale) →
        get_stale_proof_text oracle loc defaultMaxAttempts =
          ⟨.error (.exhaustedText loc 5), 5, 5⟩)
    ∧ (∀ (env : ItemEnv) (line : String),
        (∀ k, k < 3 → env.unitRead k = ElemOutcome.stale) →
        lineResults env line =
          lineResults { env with unitRead := fun _ => ElemOutcome.ok [] } line) := by
  refine ⟨?_, ?_, ?_⟩
  · intro oracle h
    have := readUnitIdsGo_all_stale oracle 3 0 (fun k _ hk => h k (by omega))
    simpa using this
  · intro oracle loc h
    have := getTextGo_all_stale oracle loc 5 5 0 (fun k _ hk => h k (by omega))
    simpa [get_stale_proof_text, defaultMaxAttempts] using this
  · intro env line h
    obtain ⟨nowUs, s1, s2p, s2r, s3p, ur, ue⟩ := env
    have hur : readUnitIds ur = Except.ok [] := by
      have := readUnitIdsGo_all_stale ur 3 0 (fun k _ hk => h k (by omega))
      simp [readUnitIds, this]
    have hg : readUnitIds (fun _ => ElemOutcome.ok ([] : List String)) = Except.ok [] := rfl
    have hbody :
        runLineBody ⟨nowUs, s1, s2p, s2r, s3p, ur, ue⟩ line =
          runLineBody ⟨nowUs, s1, s2p, s2r, s3p, fun _ => ElemOutcome.ok [], ue⟩ line := by
      unfold runLineBody
      dsimp only
      rw [hur, hg]
    unfold lineResults
    rw [hbody]

theorem C9_stage3_retry_bound_witness :
    readUnitIdsGo (fun _ => ElemOutcome.stale) 0 3 = (Except.ok [], 3)
    ∧ lineResults staleUnitsEnv "a,2023-10-27 15:30" =
        lineResults { staleUnitsEnv with unitRead := fun _ => ElemOutcome.ok [] }
          "a,2023-10-27 15:30" :=
  ⟨C9_stage3_retry_bound.1 (fun _ => ElemOutcome.stale) (fun _ _ => rfl),
    C9_stage3_retry_bound.2.2 staleUnitsEnv "a,2023-10-27 15:30" (fun _ _ => rfl)⟩

end App

namespace App

/-- C6: the computed review delay is the truncated whole-second difference
between now and the completion timestamp, clamped at zero; it is never
negative, and a completion timestamp in the future yields exactly zero. -/
theorem C6_delay_clamped :
    ∀ (nowUs compUs : Int),
      timeDeltaSeconds (nowUs - compUs) = max 0 (Int.tdiv (nowUs - compUs) 1000000)
      ∧ 0 ≤ timeDeltaSeconds (nowUs - compUs)
      ∧ (nowUs < compUs → timeDeltaSeconds (nowUs - compUs) = 0) := by
  intro a b
  have hmax : ∀ t : Int, (if t < 0 then 0 else t) = max 0 t := by
    intro t
    by_cases h : t < 0
    · rw [if_pos h, max_eq_left (le_of_lt h)]
    · rw [if_neg h, max_eq_right (not_lt.mp h)]
  have heq : timeDeltaSeconds (a - b) = max 0 (Int.tdiv (a - b) 1000000) := by
    simp only [timeDeltaSeconds]
    exact hmax _
  refine ⟨heq, by rw [heq]; exact le_max_left _ _, ?_⟩
  intro hlt
  have h1 : 0 ≤ Int.tdiv (b - a) 1000000 := Int.tdiv_nonneg (by omega) (by norm_num)
  have h2 : Int.tdiv (-(a - b)) 1000000 = -Int.tdiv (a - b) 1000000 := Int.neg_tdiv _ _
  have h3 : -(a - b) = b - a := by ring
  have h4 : Int.tdiv (a - b) 1000000 ≤ 0 := by
    rw [h3] at h2
    omega
  rw [heq, max_eq_left h4]

theorem C6_delay_clamped_witness :
    timeDeltaSeconds ((0 : Int) - 1500000) = 0 :=
  (C6_delay_clamped 0 1500000).2.2 (by norm_num)

/-- C7: in a stage-4 unit iteration that reaches the review checkbox, the
toggle is never clicked when is_selected() is already true, and is clicked
exactly once when it is false, making the enable operation idempotent. -/
theorem C7_toggle_idempotent :
    ∀ (env : UnitEnv),
      env.pre = Except.ok () →
      (stale_proof_click env.examLink examLinkLocator defaultMaxAttempts).outcome =
        Except.ok true →
      env.checkboxWait = Except.ok () →
      ((env.selected = true → (enableReviewForUnit env).2 = 0)
        ∧ (env.selected = false → (enableReviewForUnit env).2 = 1)) := by
  intro env h1 h2 h3
  unfold enableReviewForUnit
  rw [h1, h2, h3]
  constructor
  · intro hs
    rw [hs]
    simp only [if_true]
    cases env.post <;> rfl
  · intro hs
    rw [hs]
    simp only [Bool.false_eq_true, if_false]
    cases env.toggleClick with
    | error e => rfl
    | ok _ => cases env.post <;> rfl

theorem C7_toggle_idempotent_witness :
    (enableReviewForUnit okUnitEnv).2 = 0 ∧ (enableReviewForUnit offUnitEnv).2 = 1 :=
  ⟨(C7_toggle_idempotent okUnitEnv rfl rfl rfl).1 rfl,
    (C7_toggle_idempotent offUnitEnv rfl rfl rfl).2 rfl⟩

/-- C8: items are processed strictly sequentially in input order — the run
over a line list decomposes into the head line's entries followed by the run
over the remaining lines — any exception raised inside the per-item try body
is converted at the per-item boundary into exactly one Failed Result entry
carrying the error text, and every item contributes at least one entry, so
no error ever escapes to abort the run. -/
theorem C8_sequential_error_boundary :
    (∀ (env : Nat → ItemEnv) (l : String) (rest : List String),
        runLines env (l :: rest) =
          lineResults (env 0) l ++ runLines (fun k => env (k + 1)) rest)
    ∧ (∀ (env : ItemEnv) (line : String) (e : AutoError) (r : Result),
        (runLineBody env line).outcome = LineOutcome.raised e r →
        lineResults env line = [⟨r.id, "Failed", r.details ++ "Error: " ++ e.str⟩])
    ∧ (∀ (env : ItemEnv) (line : String), lineResults env line ≠ []) := by
  refine ⟨fun _ _ _ => rfl, ?_, ?_⟩
  · intro env line e r h
    unfold lineResults
    rw [h]
  · intro env line
    unfold lineResults
    cases (runLineBody env line).outcome <;> simp

theorem C8_sequential_error_boundary_witness :
    lineResults stage1FailEnv "x,2023-10-27 15:30" =
      [⟨"x", "Failed", "Error: TimeoutException"⟩] :=
  C8_sequential_error_boundary.2.1 stage1FailEnv "x,2023-10-27 15:30"
    AutoError.timeout ⟨"x", "Failed", ""⟩ (by decide)

end App

namespace App

/-- A line whose comma split does not have exactly two fields takes the
malformed-line early continue, independent of the environment. -/
theorem runLineBody_malformed (env : ItemEnv) (line : String)
    (h : (pySplit ',' line).length ≠ 2) :
    runLineBody env line =
      ⟨.earlyContinue ⟨"", "Failed", "Malformed input line"⟩, 0, 0, none⟩ := by
  unfold runLineBody
  rcases hsp : pySplit ',' line with _ | ⟨a, _ | ⟨b, _ | ⟨c, t⟩⟩⟩
  · rfl
  · rfl
  · exact absurd (by rw [hsp]; rfl) h
  · rfl

/-- C1 (code_bug): the source appends the item's Result both in each
early-continue branch and in the per-item finally clause, so an
early-rejected line produces two identical Result entries and the final
count exceeds the count of non-blank input lines; only lines that run the
try body to completion or raise produce exactly one entry. -/
theorem C1_result_count_bug :
    perform_automation_results (fun _ => okItemEnv) "abc" =
      [⟨"", "Failed", "Malformed input line"⟩, ⟨"", "Failed", "Malformed input line"⟩]
    ∧ getLines "abc" = ["abc"]
    ∧ (perform_automation_results (fun _ => okItemEnv) "abc").length = 2
    ∧ (getLines "abc").length = 1
    ∧ (perform_automation_results (fun _ => stage1FailEnv) "x,2023-10-27 15:30").length = 1 := by
  refine ⟨by decide, by decide, by decide, by decide, by decide⟩

/-- C2 (code_bug): on the no-units-found early continue the Result keeps the
status "Success" assigned after stage 1, with the no-units detail appended;
stage 4 never executes for that item and processing proceeds to the next
work item. -/
theorem C2_no_units_status_bug :
    lineResults noUnitsEnv "abc12345-xxxx,2023-10-27 15:30:00" =
      [⟨"abc12345-xxxx", "Success",
          "Review config created; New ID: newid-123; No Unit IDs found; "⟩,
        ⟨"abc12345-xxxx", "Success",
          "Review config created; New ID: newid-123; No Unit IDs found; "⟩]
    ∧ (∀ r ∈ lineResults noUnitsEnv "abc12345-xxxx,2023-10-27 15:30:00",
        r.status = "Success" ∧ r.status ≠ "Failed")
    ∧ (runLineBody noUnitsEnv "abc12345-xxxx,2023-10-27 15:30:00").stage4Units = 0
    ∧ (runLineBody noUnitsEnv "abc12345-xxxx,2023-10-27 15:30:00").toggleClicks = 0
    ∧ runLines (fun i => if i = 0 then noUnitsEnv else okItemEnv)
        ["abc12345-xxxx,2023-10-27 15:30:00", "b,2023-10-27 15:30"] =
      lineResults noUnitsEnv "abc12345-xxxx,2023-10-27 15:30:00"
        ++ [⟨"b", "Success",
            "Review config created; New ID: newid-123; Found 1 units; Enabled review for u1; "⟩] := by
  refine ⟨by decide, by decide, by decide, by decide, by decide⟩

/-- C3 (counterexample): the detail recorded for a malformed line is
"Malformed input line", not "Malformed line" as the claim states. -/
theorem C3_malformed_detail_counterexample :
    lineResults okItemEnv "a,b,c" =
      [⟨"", "Failed", "Malformed input line"⟩, ⟨"", "Failed", "Malformed input line"⟩]
    ∧ (∀ r ∈ lineResults okItemEnv "a,b,c", r.details ≠ "Malformed line") := by
  refine ⟨by decide, by decide⟩

/-- C3 (amended): every input line whose comma-split field count is not
exactly two yields only entries with status Failed and detail
"Malformed input line"; the outcome is independent of the environment (so
no navigation or search operation can influence it — none is performed) and
stage 4 never runs; only that line is affected. -/
theorem C3_malformed_line_amended :
    ∀ (env env2 : ItemEnv) (line : String),
      (pySplit ',' line).length ≠ 2 →
      (∀ r ∈ lineResults env line, r.status = "Failed" ∧ r.details = "Malformed input line")
      ∧ lineResults env line = lineResults env2 line
      ∧ (runLineBody env line).stage4Units = 0 := by
  intro env env2 line h
  have h1 := runLineBody_malformed env line h
  have h2 := runLineBody_malformed env2 line h
  refine ⟨?_, ?_, ?_⟩
  · intro r hr
    simp only [lineResults, h1] at hr
    simp only [List.mem_cons, List.not_mem_nil, or_false] at hr
    rcases hr with hr | hr <;> subst hr <;> exact ⟨rfl, rfl⟩
  · simp only [lineResults, h1, h2]
  · rw [h1]

theorem C3_malformed_line_amended_witness :
    (∀ r ∈ lineResults okItemEnv "a,b,c",
        r.status = "Failed" ∧ r.details = "Malformed input line")
    ∧ lineResults okItemEnv "a,b,c" = lineResults noUnitsEnv "a,b,c"
    ∧ (runLineBody okItemEnv "a,b,c").stage4Units = 0 :=
  C3_malformed_line_amended okItemEnv noUnitsEnv "a,b,c" (by decide)

/-- C5: timestamp parsing accepts exactly the seconds-precision and the
minutes-precision format, tried in that order — a seconds-precision success
is taken without consulting the other format, and only a seconds-precision
failure falls through to the minutes format; the spec's three examples
behave as stated; and a string matching neither format makes the item fail
with the invalid-datetime detail before any pipeline stage runs, whatever
the environment. -/
theorem C5_timestamp_formats :
    parseFmtSeconds "2023-10-27 15:30:00" = some ⟨2023, 10, 27, 15, 30, 0⟩
    ∧ (parseFmtSeconds "2023-10-27 15:30" = none
        ∧ parseFmtMinutes "2023-10-27 15:30" = some ⟨2023, 10, 27, 15, 30, 0⟩)
    ∧ parseCompletion "2023-13-99" = none
    ∧ (∀ (s : String) (dt : DateTime),
        parseFmtSeconds s = some dt → parseCompletion s = some dt)
    ∧ (∀ s : String, parseFmtSeconds s = none → parseCompletion s = parseFmtMinutes s)
    ∧ (∀ (env : ItemEnv) (line p0 p1 : String),
        pySplit ',' line = [p0, p1] →
        parseCompletion (pyStrip p1) = none →
        runLineBody env line =
          ⟨.earlyContinue ⟨pyStrip p0, "Failed", "Invalid datetime format"⟩, 0, 0, none⟩) := by
  refine ⟨by decide, ⟨by decide, by decide⟩, by decide, ?_, ?_, ?_⟩
  · intro s dt h
    unfold parseCompletion
    rw [h]
  · intro s h
    unfold parseCompletion
    rw [h]
  · intro env line p0 p1 hsp hpc
    unfold runLineBody
    rw [hsp]
    dsimp only
    rw [hpc]

theorem C5_timestamp_formats_witness :
    parseCompletion "2023-10-27 15:30:00" = some ⟨2023, 10, 27, 15, 30, 0⟩
    ∧ runLineBody okItemEnv "id,bogus" =
        ⟨.earlyContinue ⟨"id", "Failed", "Invalid datetime format"⟩, 0, 0, none⟩ :=
  ⟨C5_timestamp_formats.2.2.2.1 "2023-10-27 15:30:00" ⟨2023, 10, 27, 15, 30, 0⟩ (by decide),
    C5_timestamp_formats.2.2.2.2.2 okItemEnv "id,bogus" "id" "bogus" (by decide) (by decide)⟩

end App
